import Mathlib

/-!
Verification of the query-building, authorization, resource-handler and
file-lifecycle layer of a financial record-keeping REST backend.

JavaScript strings that undergo character-level manipulation (splitting,
substring search, replacement) are embedded as `List Char`; strings that are
only concatenated or compared are embedded as `String`.  `undefined`/`null`
JavaScript values are embedded as `Option`/an explicit value type, fallible
handlers return `Except` together with the (possibly unchanged) state they
act on, and the SQL datastore is embedded as explicit lists of rows.
-/

set_option autoImplicit false

/-- Characters of a JavaScript string, for character-level manipulation. -/
abbrev Chars := List Char

/-- Numeric value of a decimal digit string (most significant digit first). -/
def digitsVal (s : Chars) : Nat :=
  s.foldl (fun a c => a * 10 + (c.toNat - '0'.toNat)) 0

/-- JavaScript `parseInt` restricted to its base-10, no-sign fragment: the
value of the longest digit run at the front of the string, `none` (= `NaN`)
when the string does not start with a digit. -/
def jsParseIntNat (s : Chars) : Option Nat :=
  let ds := s.takeWhile Char.isDigit
  if ds.isEmpty then none else some (digitsVal ds)

/-- MySQL `CAST(s AS UNSIGNED)`: value of the leading digit run, `0` when
there is none. -/
def mysqlCastUnsigned (s : Chars) : Nat :=
  digitsVal (s.takeWhile Char.isDigit)

/-- JavaScript `String.prototype.padStart(n, c)`. -/
def jsPadStart (s : Chars) (n : Nat) (c : Char) : Chars :=
  if n ≤ s.length then s else List.replicate (n - s.length) c ++ s

/-- JavaScript `String.prototype.split(sep)` for a one-character separator. -/
def jsSplit (sep : Char) : Chars → List Chars
  | [] => [[]]
  | c :: cs =>
    match jsSplit sep cs with
    | [] => [[]]
    | t :: ts => if c = sep then [] :: t :: ts else (c :: t) :: ts

/-- JavaScript `String.prototype.includes(pat)`: substring test. -/
def jsIncludes (pat : Chars) : Chars → Bool
  | [] => pat.isEmpty
  | c :: cs => pat.isPrefixOf (c :: cs) || jsIncludes pat cs

/-- JavaScript `String.prototype.replace(pat, '')` for a non-empty string
pattern: removes the first occurrence of `pat`, if any. -/
def jsReplaceOnce (pat : Chars) : Chars → Chars
  | [] => []
  | c :: cs =>
    if pat.isPrefixOf (c :: cs) then (c :: cs).drop pat.length
    else c :: jsReplaceOnce pat cs

/-- Application-level error (`AppError` in `errorMiddleware`): message,
HTTP status code, machine-readable code. -/
structure AppError where
  message : String
  statusCode : Nat
  code : String
deriving DecidableEq, Repr

/-! ### Sequential transaction-id generation (`queryUtils.generateNextTransactionId`) -/

/-- The row selected by `ORDER BY <key> DESC LIMIT 1`: an element of the list
whose key is maximal (the first such element when keys tie). -/
def pickMax {α : Type} (key : α → Nat) : List α → Option α
  | [] => none
  | x :: xs =>
    match pickMax key xs with
    | none => some x
    | some b => if key b < key x then some x else some b

/-- The characters of the `'txn-'` id tag. -/
def txnTag : Chars := "txn-".toList

/-- `generateNextTransactionId`, with the transactions table embedded as the
list of its `id` column values.  The SQL
`SELECT id FROM transactions WHERE id LIKE 'txn-%' ORDER BY CAST(SUBSTRING(id, 5) AS UNSIGNED) DESC LIMIT 1`
is embedded as `pickMax` of the numeric cast of the suffix after the first
four characters over the ids with the `txn-` prefix. -/
def generateNextTransactionId (table : List Chars) : Chars :=
  match pickMax (fun id => mysqlCastUnsigned (id.drop 4))
      (table.filter (fun id => txnTag.isPrefixOf id)) with
  | none => "txn-001".toList
  | some lastId =>
    match jsParseIntNat ((jsSplit '-' lastId).getD 1 []) with
    | none => "txn-NaN".toList
    | some lastNumber => txnTag ++ jsPadStart (Nat.toDigits 10 (lastNumber + 1)) 3 '0'

/-- Well-formedness of a stored transaction id: if it has the `txn-` prefix,
the rest is a non-empty digit string. -/
def txnWF (id : Chars) : Bool :=
  !txnTag.isPrefixOf id || (!(id.drop 4).isEmpty && (id.drop 4).all Char.isDigit)

theorem pickMax_eq_none {α : Type} (key : α → Nat) (l : List α) :
    pickMax key l = none ↔ l = [] := by
  cases l with
  | nil => simp [pickMax]
  | cons x xs =>
    simp only [pickMax]
    cases h : pickMax key xs with
    | none => simp
    | some b => by_cases hk : key b < key x <;> simp [hk]

theorem pickMax_mem {α : Type} (key : α → Nat) :
    ∀ {l : List α} {b : α}, pickMax key l = some b → b ∈ l := by
  intro l
  induction l with
  | nil => intro b h; simp [pickMax] at h
  | cons x xs ih =>
    intro b h
    simp only [pickMax] at h
    cases hx : pickMax key xs with
    | none => rw [hx] at h; simp only [Option.some.injEq] at h; simp [← h]
    | some c =>
      rw [hx] at h
      by_cases hk : key c < key x
      · simp only [if_pos hk, Option.some.injEq] at h
        simp [← h]
      · simp only [if_neg hk, Option.some.injEq] at h
        exact List.mem_cons_of_mem _ (h ▸ ih hx)

theorem pickMax_le {α : Type} (key : α → Nat) :
    ∀ {l : List α} {b : α}, pickMax key l = some b → ∀ x ∈ l, key x ≤ key b := by
  intro l
  induction l with
  | nil => intro b h; simp [pickMax] at h
  | cons x xs ih =>
    intro b h y hy
    simp only [pickMax] at h
    cases hx : pickMax key xs with
    | none =>
      rw [hx] at h
      simp only [Option.some.injEq] at h
      have : xs = [] := (pickMax_eq_none key xs).mp hx
      subst this
      rcases List.mem_cons.mp hy with rfl | hmem
      · exact h ▸ Nat.le_refl _
      · simp at hmem
    | some c =>
      rw [hx] at h
      by_cases hk : key c < key x
      · simp only [if_pos hk, Option.some.injEq] at h
        subst h
        rcases List.mem_cons.mp hy with rfl | hmem
        · exact Nat.le_refl _
        · exact Nat.le_of_lt (Nat.lt_of_le_of_lt (ih hx y hmem) hk)
      · simp only [if_neg hk, Option.some.injEq] at h
        subst h
        rcases List.mem_cons.mp hy with rfl | hmem
        · exact Nat.le_of_not_lt hk
        · exact ih hx y hmem

theorem jsSplit_of_not_mem {sep : Char} : ∀ {s : Chars}, sep ∉ s → jsSplit sep s = [s] := by
  intro s
  induction s with
  | nil => intro _; rfl
  | cons c cs ih =>
    intro h
    have hc : ¬ c = sep := fun e => h (e ▸ List.mem_cons_self c cs)
    have hcs : jsSplit sep cs = [cs] := ih (fun m => h (List.mem_cons_of_mem _ m))
    simp [jsSplit, hcs, hc]

theorem jsSplit_txnTag (ds : Chars) (h : '-' ∉ ds) :
    jsSplit '-' (txnTag ++ ds) = [['t', 'x', 'n'], ds] := by
  have e : txnTag = 't' :: 'x' :: 'n' :: '-' :: [] := rfl
  rw [e]
  simp [jsSplit, jsSplit_of_not_mem h]

theorem takeWhile_of_all {α : Type} {p : α → Bool} :
    ∀ {s : List α}, (∀ c ∈ s, p c = true) → s.takeWhile p = s := by
  intro s
  induction s with
  | nil => intro _; rfl
  | cons c cs ih =>
    intro h
    have hc : p c = true := h c (List.mem_cons_self c cs)
    simp [List.takeWhile, hc, ih (fun x hx => h x (List.mem_cons_of_mem _ hx))]


theorem generateNextTransactionId_eq_some (table : List Chars) {b : Chars}
    (h : pickMax (fun id => mysqlCastUnsigned (id.drop 4))
        (table.filter (fun id => txnTag.isPrefixOf id)) = some b) :
    generateNextTransactionId table =
      match jsParseIntNat ((jsSplit '-' b).getD 1 []) with
      | none => "txn-NaN".toList
      | some lastNumber => txnTag ++ jsPadStart (Nat.toDigits 10 (lastNumber + 1)) 3 '0' := by
  rw [generateNextTransactionId, h]

theorem jsParseIntNat_digits {ds : Chars} (hne : ds.isEmpty = false)
    (hdig : ∀ c ∈ ds, c.isDigit = true) :
    jsParseIntNat ds = some (digitsVal ds) := by
  simp only [jsParseIntNat]
  rw [takeWhile_of_all hdig]
  simp [hne]

/-- Claim C1: `generateNextTransactionId` returns `txn-001` when no transaction id
with prefix `txn-` exists; otherwise it selects the existing id with the largest
numeric suffix (compared numerically, not lexically) and returns `txn-` followed
by that suffix plus one, zero-padded to at least 3 digits.  Stated for every
transactions table whose `txn-`-prefixed ids are well-formed (`txn-<digits>`):
if no id has the prefix the result is `txn-001`, and if `M` is the largest
numeric suffix among the prefixed ids the result is `txn-` followed by the
decimal digits of `M + 1` padded to 3 characters. -/
theorem generateNextTransactionId_spec (table : List Chars)
    (hwf : ∀ id ∈ table, txnWF id = true) :
    ((∀ id ∈ table, txnTag.isPrefixOf id = false) →
        generateNextTransactionId table = "txn-001".toList) ∧
    (∀ M, (∃ id ∈ table, txnTag.isPrefixOf id = true ∧ digitsVal (id.drop 4) = M) →
        (∀ id ∈ table, txnTag.isPrefixOf id = true → digitsVal (id.drop 4) ≤ M) →
        generateNextTransactionId table =
          txnTag ++ jsPadStart (Nat.toDigits 10 (M + 1)) 3 '0') := by
  constructor
  · intro hnone
    have hf : table.filter (fun id => txnTag.isPrefixOf id) = [] := by
      rw [List.filter_eq_nil_iff]
      intro a ha
      simp [hnone a ha]
    rw [generateNextTransactionId, hf]
    rfl
  · intro M hex hub
    obtain ⟨id0, hid0t, hid0p, hid0v⟩ := hex
    have hid0f : id0 ∈ table.filter (fun id => txnTag.isPrefixOf id) :=
      List.mem_filter.mpr ⟨hid0t, hid0p⟩
    cases hpm : pickMax (fun id => mysqlCastUnsigned (id.drop 4))
        (table.filter (fun id => txnTag.isPrefixOf id)) with
    | none =>
      rw [pickMax_eq_none] at hpm
      rw [hpm] at hid0f
      simp at hid0f
    | some b =>
      have hbf := pickMax_mem _ hpm
      have hbt : b ∈ table := (List.mem_filter.mp hbf).1
      have hbp : txnTag.isPrefixOf b = true := (List.mem_filter.mp hbf).2
      -- decompose b = txnTag ++ ds
      obtain ⟨ds, hds⟩ : ∃ t, txnTag ++ t = b := by
        have := List.isPrefixOf_iff_prefix.mp hbp
        exact this
      have hdrop : b.drop 4 = ds := by
        rw [← hds]
        have : txnTag.length = 4 := rfl
        rw [← this, List.drop_left]
      have hwfb := hwf b hbt
      rw [txnWF, hbp] at hwfb
      simp only [Bool.not_true, Bool.false_or, Bool.and_eq_true] at hwfb
      obtain ⟨hne, hdig⟩ := hwfb
      rw [hdrop] at hne hdig
      have hdigits : ∀ c ∈ ds, Char.isDigit c = true := List.all_eq_true.mp hdig
      have hnodash : '-' ∉ ds := by
        intro hmem
        have := hdigits _ hmem
        simp [Char.isDigit] at this
      -- numeric value of b's suffix equals M
      have hcast : ∀ id ∈ table, txnTag.isPrefixOf id = true →
          mysqlCastUnsigned (id.drop 4) = digitsVal (id.drop 4) := by
        intro id hidt hidp
        have hwfi := hwf id hidt
        rw [txnWF, hidp] at hwfi
        simp only [Bool.not_true, Bool.false_or, Bool.and_eq_true] at hwfi
        rw [mysqlCastUnsigned, takeWhile_of_all (List.all_eq_true.mp hwfi.2)]
      have hle1 : mysqlCastUnsigned (b.drop 4) ≤ M := by
        rw [hcast b hbt hbp]
        exact hub b hbt hbp
      have hle2 : M ≤ mysqlCastUnsigned (b.drop 4) := by
        have := pickMax_le _ hpm id0 hid0f
        rw [hcast id0 hid0t hid0p, hid0v] at this
        exact this
      have hM : digitsVal ds = M := by
        have := Nat.le_antisymm hle1 hle2
        rw [hcast b hbt hbp, hdrop] at this
        exact this
      rw [generateNextTransactionId_eq_some table hpm, ← hds]
      rw [jsSplit_txnTag ds hnodash]
      simp only [List.getD_cons_succ, List.getD_cons_zero]
      rw [jsParseIntNat_digits (by simpa using hne) hdigits]
      rw [hM]

theorem generateNextTransactionId_spec_witness :
    generateNextTransactionId [] = "txn-001".toList ∧
    generateNextTransactionId ["txn-012".toList, "txn-045".toList, "txn-003".toList] =
      "txn-046".toList ∧
    generateNextTransactionId ["txn-999".toList] = "txn-1000".toList := by
  refine ⟨(generateNextTransactionId_spec [] (by decide)).1 (by decide), ?_, ?_⟩
  · have h := (generateNextTransactionId_spec
        ["txn-012".toList, "txn-045".toList, "txn-003".toList] (by decide)).2 45
        (by decide) (by decide)
    exact h.trans (by decide)
  · have h := (generateNextTransactionId_spec ["txn-999".toList] (by decide)).2 999
        (by decide) (by decide)
    exact h.trans (by decide)

/-! ### Dynamic update queries (`queryUtils.buildUpdateQuery`) -/

/-- `buildUpdateQuery(table, updates, whereClause, whereParams)`.  The
`updates` object is embedded as an association list in key insertion order;
a `none` value is JavaScript `undefined`.  Mirrors the source: collect
`key = ?` fragments and values for the defined entries, fail with
`NO_UPDATE_FIELDS` (400) when none remain, otherwise emit
`UPDATE <table> SET <fields>, updated_at = NOW() WHERE <whereClause>` with
the update values followed by the where parameters. -/
def buildUpdateQuery {α : Type} (table : String) (updates : List (String × Option α))
    (whereClause : String) (whereParams : List α) : Except AppError (String × List α) :=
  let updateFields := updates.filterMap (fun kv => kv.2.map (fun _ => kv.1 ++ " = ?"))
  let updateValues := updates.filterMap (fun kv => kv.2)
  if updateFields.isEmpty then
    .error ⟨"No fields to update", 400, "NO_UPDATE_FIELDS"⟩
  else
    .ok ("UPDATE " ++ table ++ " SET " ++ String.intercalate ", " updateFields ++
           ", updated_at = NOW() WHERE " ++ whereClause,
         updateValues ++ whereParams)

/-- The defined entries of an `updates` object: the key/value pairs whose
value is not `undefined`, in insertion order. -/
def definedEntries {α : Type} (updates : List (String × Option α)) : List (String × α) :=
  updates.filterMap (fun kv => kv.2.map (fun v => (kv.1, v)))

theorem filterMap_fields_eq {α : Type} (updates : List (String × Option α)) :
    updates.filterMap (fun kv => kv.2.map (fun _ => kv.1 ++ " = ?")) =
      (definedEntries updates).map (fun kv => kv.1 ++ " = ?") := by
  induction updates with
  | nil => rfl
  | cons kv rest ih =>
    cases kv with
    | mk k v => cases v <;> simp [definedEntries, List.filterMap_cons, ih]

theorem filterMap_values_eq {α : Type} (updates : List (String × Option α)) :
    updates.filterMap (fun kv => kv.2) = (definedEntries updates).map Prod.snd := by
  induction updates with
  | nil => rfl
  | cons kv rest ih =>
    cases kv with
    | mk k v => cases v <;> simp [definedEntries, List.filterMap_cons, ih]

/-- Claim C2: for every table, updates object, where-clause and where-params,
`buildUpdateQuery` drops every `undefined`-valued key, fails with a 400
`NO_UPDATE_FIELDS` error when no defined field remains, and otherwise returns
the query whose `SET` list is exactly the defined fields followed by the
trailing `updated_at = NOW()` touch, with parameters the defined values in
order followed by the where-params. -/
theorem buildUpdateQuery_spec {α : Type} (table : String)
    (updates : List (String × Option α)) (wc : String) (wp : List α) :
    (definedEntries updates = [] →
      buildUpdateQuery table updates wc wp =
        .error ⟨"No fields to update", 400, "NO_UPDATE_FIELDS"⟩) ∧
    (definedEntries updates ≠ [] →
      buildUpdateQuery table updates wc wp =
        .ok ("UPDATE " ++ table ++ " SET " ++
              String.intercalate ", " ((definedEntries updates).map (fun kv => kv.1 ++ " = ?")) ++
              ", updated_at = NOW() WHERE " ++ wc,
             (definedEntries updates).map Prod.snd ++ wp)) := by
  constructor
  · intro h
    rw [buildUpdateQuery]
    simp only [filterMap_fields_eq, filterMap_values_eq, h]
    rfl
  · intro h
    rw [buildUpdateQuery]
    simp only [filterMap_fields_eq, filterMap_values_eq]
    rw [if_neg]
    simp only [List.isEmpty_eq_true, List.map_eq_nil_iff]
    exact h

/-- Witness for C2 at the spec's example: updating `profiles` with a defined
`name` and an `undefined` `phone` touches only `name` plus the timestamp and
passes `['A', id]`. -/
theorem buildUpdateQuery_spec_witness :
    buildUpdateQuery "profiles" [("name", some "A"), ("phone", (none : Option String))]
        "id = ?" ["user-42"] =
      .ok ("UPDATE profiles SET name = ?, updated_at = NOW() WHERE id = ?", ["A", "user-42"]) := by
  have h := (buildUpdateQuery_spec "profiles"
      [("name", some "A"), ("phone", (none : Option String))] "id = ?" ["user-42"]).2
      (by decide)
  rw [h]
  rfl

/-! ### Filtered search queries (`queryUtils.buildSearchQuery`) -/

/-- A JavaScript filter value: `undefined`, `null`, or a string.  (The
callers pass strings; other primitives are not needed for the filters.) -/
inductive FilterVal where
  | vUndef
  | vNull
  | vStr (s : String)
deriving DecidableEq, Repr

/-- The predicate and parameter generated for one kept filter entry, exactly
as in the source: `includes('_like')` (substring test, checked first) gives a
`LIKE` predicate on the key with its first `_like` removed and the value
wrapped in `%…%`; then `includes('_date_from')` gives `>=`; then
`includes('_date_to')` gives `<=`; anything else gives equality. -/
def filterClause (k : Chars) (s : String) : Chars × String :=
  if jsIncludes "_like".toList k then
    (jsReplaceOnce "_like".toList k ++ " LIKE ?".toList, "%" ++ s ++ "%")
  else if jsIncludes "_date_from".toList k then
    (jsReplaceOnce "_date_from".toList k ++ " >= ?".toList, s)
  else if jsIncludes "_date_to".toList k then
    (jsReplaceOnce "_date_to".toList k ++ " <= ?".toList, s)
  else
    (k ++ " = ?".toList, s)

/-- `buildSearchQuery(baseQuery, filters, baseParams)`: skips `undefined`,
`null` and empty-string values, builds one predicate per kept entry via
`filterClause`, joins them with ` AND ` onto the base query — appending with
` AND ` when the base already contains `WHERE`, introducing ` WHERE `
otherwise — and returns the base parameters extended by the filter values. -/
def buildSearchQuery (baseQuery : Chars) (filters : List (Chars × FilterVal))
    (baseParams : List String) : Chars × List String :=
  let kept := filters.filterMap (fun kv =>
    match kv.2 with
    | FilterVal.vStr s => if s = "" then none else some (filterClause kv.1 s)
    | _ => none)
  let query :=
    if kept.isEmpty then baseQuery
    else
      baseQuery ++
        (if jsIncludes "WHERE".toList baseQuery then " AND ".toList else " WHERE ".toList) ++
        List.intercalate " AND ".toList (kept.map Prod.fst)
  (query, baseParams ++ kept.map Prod.snd)

/-- The filter entries that survive the skip rule (value defined, non-null,
non-empty), with their string values, in insertion order. -/
def keptFilters (filters : List (Chars × FilterVal)) : List (Chars × String) :=
  filters.filterMap (fun kv =>
    match kv.2 with
    | FilterVal.vStr s => if s = "" then none else some (kv.1, s)
    | _ => none)

theorem kept_eq_map_filterClause (filters : List (Chars × FilterVal)) :
    filters.filterMap (fun kv =>
        match kv.2 with
        | FilterVal.vStr s => if s = "" then none else some (filterClause kv.1 s)
        | _ => none) =
      (keptFilters filters).map (fun kv => filterClause kv.1 kv.2) := by
  induction filters with
  | nil => rfl
  | cons kv rest ih =>
    cases kv with
    | mk k v =>
      cases v with
      | vUndef => simpa [keptFilters, List.filterMap_cons] using ih
      | vNull => simpa [keptFilters, List.filterMap_cons] using ih
      | vStr s =>
        by_cases hs : s = "" <;>
          · simp only [keptFilters, List.filterMap_cons, hs] at ih ⊢
            simp [hs, ih]

/-- Claim C3 counterexample: the filter key `a_like_b` does not end in
`_like`, `_date_from` or `_date_to`, so the claim maps it to the equality
predicate `a_like_b = ?` with parameter `v`; the code instead tests
substring containment and removes the first `_like` occurrence, producing
`a_b LIKE ?` with parameter `%v%`. -/
theorem buildSearchQuery_claim_cex :
    buildSearchQuery "SELECT * FROM t".toList [("a_like_b".toList, FilterVal.vStr "v")] [] =
        ("SELECT * FROM t WHERE a_b LIKE ?".toList, ["%v%"]) ∧
    ¬ buildSearchQuery "SELECT * FROM t".toList [("a_like_b".toList, FilterVal.vStr "v")] [] =
        ("SELECT * FROM t WHERE a_like_b = ?".toList, ["v"]) := by
  constructor <;> decide

/-- Claim C3 amended: `buildSearchQuery` skips filter entries whose value is
`undefined`, `null` or the empty string; maps each remaining key *containing*
`_like` (checked first) to a `LIKE` predicate (value wrapped in `%…%`), each
other key containing `_date_from` to a `>=` predicate, each other key
containing `_date_to` to a `<=` predicate — each on the column name obtained
by removing the first occurrence of that marker — and every other key to an
equality predicate; it joins the predicates with ` AND ` onto the base query
when it already contains `WHERE`, introducing ` WHERE ` otherwise, and
returns the base params extended by the filter values in order. -/
theorem buildSearchQuery_spec (base : Chars) (filters : List (Chars × FilterVal))
    (ps : List String) :
    (keptFilters filters = [] → buildSearchQuery base filters ps = (base, ps)) ∧
    (keptFilters filters ≠ [] →
      buildSearchQuery base filters ps =
        (base ++
           (if jsIncludes "WHERE".toList base then " AND ".toList else " WHERE ".toList) ++
           List.intercalate " AND ".toList
             ((keptFilters filters).map (fun kv => (filterClause kv.1 kv.2).1)),
         ps ++ (keptFilters filters).map (fun kv => (filterClause kv.1 kv.2).2))) ∧
    (∀ k s, jsIncludes "_like".toList k = true →
      filterClause k s = (jsReplaceOnce "_like".toList k ++ " LIKE ?".toList, "%" ++ s ++ "%")) ∧
    (∀ k s, jsIncludes "_like".toList k = false → jsIncludes "_date_from".toList k = true →
      filterClause k s = (jsReplaceOnce "_date_from".toList k ++ " >= ?".toList, s)) ∧
    (∀ k s, jsIncludes "_like".toList k = false → jsIncludes "_date_from".toList k = false →
      jsIncludes "_date_to".toList k = true →
      filterClause k s = (jsReplaceOnce "_date_to".toList k ++ " <= ?".toList, s)) ∧
    (∀ k s, jsIncludes "_like".toList k = false → jsIncludes "_date_from".toList k = false →
      jsIncludes "_date_to".toList k = false →
      filterClause k s = (k ++ " = ?".toList, s)) := by
  refine ⟨?_, ?_, ?_, ?_, ?_, ?_⟩
  · intro h
    rw [buildSearchQuery]
    simp only [kept_eq_map_filterClause, h]
    simp
  · intro h
    rw [buildSearchQuery]
    simp only [kept_eq_map_filterClause]
    rw [if_neg (by simpa [List.isEmpty_eq_true, List.map_eq_nil_iff] using h)]
    simp [List.map_map, Function.comp_def]
  · intro k s h
    unfold filterClause
    rw [h]
    simp
  · intro k s h1 h2
    unfold filterClause
    rw [h1, h2]
    simp
  · intro k s h1 h2 h3
    unfold filterClause
    rw [h1, h2, h3]
    simp
  · intro k s h1 h2 h3
    unfold filterClause
    rw [h1, h2, h3]
    simp

/-- Witness for the amended C3: a `description_like` filter appended with
`AND` to a base query that already has a `WHERE`, and an all-skipped filter
set leaving the query untouched. -/
theorem buildSearchQuery_spec_witness :
    buildSearchQuery "SELECT * FROM transactions t WHERE 1=1".toList
        [("description_like".toList, FilterVal.vStr "food"),
         ("type".toList, FilterVal.vUndef)] ["p0"] =
      ("SELECT * FROM transactions t WHERE 1=1 AND description LIKE ?".toList,
       ["p0", "%food%"]) ∧
    buildSearchQuery "SELECT * FROM users u".toList
        [("name".toList, FilterVal.vNull), ("email".toList, FilterVal.vStr "")] ["q0"] =
      ("SELECT * FROM users u".toList, ["q0"]) := by
  constructor
  · have h := (buildSearchQuery_spec "SELECT * FROM transactions t WHERE 1=1".toList
        [("description_like".toList, FilterVal.vStr "food"),
         ("type".toList, FilterVal.vUndef)] ["p0"]).2.1 (by decide)
    rw [h]
    rfl
  · have h := (buildSearchQuery_spec "SELECT * FROM users u".toList
        [("name".toList, FilterVal.vNull), ("email".toList, FilterVal.vStr "")] ["q0"]).1
        (by decide)
    rw [h]

/-! ### Authentication middleware (`authMiddleware.verifyToken`) -/

/-- Outcome of `jwt.verify`: a decoded payload carrying a `userId`, a
`JsonWebTokenError` (bad signature/format), or a `TokenExpiredError`. -/
inductive JwtOutcome where
  | valid (userId : String)
  | malformed
  | expired
deriving DecidableEq, Repr

/-- One row of `users u JOIN profiles p ON u.id = p.id` as selected by the
middleware: `u.id, u.email, p.name, p.role, p.status`. -/
structure UserProfileRow where
  id : String
  email : String
  name : String
  role : String
  status : Nat
deriving DecidableEq, Repr

/-- The identity attached to the request (`req.user`). -/
structure AuthUser where
  id : String
  email : String
  name : String
  role : String
deriving DecidableEq, Repr

/-- Result of the middleware: a 401 rejection or an attached identity. -/
inductive AuthResult where
  | failure (e : AppError)
  | success (u : AuthUser)
deriving DecidableEq, Repr

/-- The characters of the `'Bearer '` scheme tag. -/
def bearerTag : Chars := "Bearer ".toList

/-- `verifyToken(req)`, with `jwt.verify` abstracted as a function from the
token to a `JwtOutcome` and the joined user/profile table as a row list.
Mirrors the source: missing or non-`Bearer ` header (or an empty token after
the tag) fails `NO_TOKEN`; a `JsonWebTokenError` fails `INVALID_TOKEN`; a
`TokenExpiredError` fails `TOKEN_EXPIRED`; a decoded `userId` with no row
satisfying `u.id = userId AND p.status = 1` fails `USER_NOT_FOUND`; otherwise
the first matching row's id/email/name/role is attached. -/
def verifyToken (jwtVerify : Chars → JwtOutcome) (rows : List UserProfileRow)
    (authHeader : Option Chars) : AuthResult :=
  match authHeader with
  | none => .failure ⟨"Access denied. No token provided.", 401, "NO_TOKEN"⟩
  | some h =>
    if ¬ bearerTag.isPrefixOf h then
      .failure ⟨"Access denied. No token provided.", 401, "NO_TOKEN"⟩
    else
      let token := h.drop 7
      if token.isEmpty then
        .failure ⟨"Access denied. No token provided.", 401, "NO_TOKEN"⟩
      else
        match jwtVerify token with
        | .malformed => .failure ⟨"Invalid token.", 401, "INVALID_TOKEN"⟩
        | .expired => .failure ⟨"Token expired.", 401, "TOKEN_EXPIRED"⟩
        | .valid uid =>
          match rows.find? (fun r => r.id == uid && r.status == 1) with
          | none => .failure ⟨"User not found or inactive.", 401, "USER_NOT_FOUND"⟩
          | some r => .success ⟨r.id, r.email, r.name, r.role⟩

/-- The bearer token extracted from the `Authorization` header: `none` when
the header is absent, lacks the `Bearer ` scheme, or carries an empty token. -/
def bearerToken (authHeader : Option Chars) : Option Chars :=
  match authHeader with
  | none => none
  | some h =>
    if bearerTag.isPrefixOf h then
      if (h.drop 7).isEmpty then none else some (h.drop 7)
    else none

/-- Claim C4: the authentication middleware rejects with 401 and the
step-specific code, in order — no/ill-formed bearer header fails `NO_TOKEN`;
a token failing signature/format verification fails `INVALID_TOKEN`; an
expired token fails `TOKEN_EXPIRED`; a decoded `userId` with no active joined
user/profile row fails `USER_NOT_FOUND` — and otherwise attaches the resolved
id, email, name and role of the matching row. -/
theorem verifyToken_spec (jwtVerify : Chars → JwtOutcome) (rows : List UserProfileRow)
    (authHeader : Option Chars) :
    (bearerToken authHeader = none →
      verifyToken jwtVerify rows authHeader =
        .failure ⟨"Access denied. No token provided.", 401, "NO_TOKEN"⟩) ∧
    (∀ t, bearerToken authHeader = some t → jwtVerify t = .malformed →
      verifyToken jwtVerify rows authHeader = .failure ⟨"Invalid token.", 401, "INVALID_TOKEN"⟩) ∧
    (∀ t, bearerToken authHeader = some t → jwtVerify t = .expired →
      verifyToken jwtVerify rows authHeader = .failure ⟨"Token expired.", 401, "TOKEN_EXPIRED"⟩) ∧
    (∀ t uid, bearerToken authHeader = some t → jwtVerify t = .valid uid →
      rows.find? (fun r => r.id == uid && r.status == 1) = none →
      verifyToken jwtVerify rows authHeader =
        .failure ⟨"User not found or inactive.", 401, "USER_NOT_FOUND"⟩) ∧
    (∀ t uid r, bearerToken authHeader = some t → jwtVerify t = .valid uid →
      rows.find? (fun r => r.id == uid && r.status == 1) = some r →
      verifyToken jwtVerify rows authHeader = .success ⟨r.id, r.email, r.name, r.role⟩) := by
  cases authHeader with
  | none =>
    refine ⟨fun _ => rfl, ?_, ?_, ?_, ?_⟩ <;> intro t
    all_goals first
      | (intro h; simp [bearerToken] at h)
      | (intro uid h; simp [bearerToken] at h)
      | (intro uid r h; simp [bearerToken] at h)
  | some h =>
    by_cases hb : bearerTag.isPrefixOf h
    · by_cases he : (h.drop 7).isEmpty
      · have hbt : bearerToken (some h) = none := by simp [bearerToken, hb, he]
        refine ⟨fun _ => ?_, ?_, ?_, ?_, ?_⟩
        · simp [verifyToken, hb, he]
        · intro t ht; rw [hbt] at ht; exact absurd ht (by simp)
        · intro t ht; rw [hbt] at ht; exact absurd ht (by simp)
        · intro t uid ht; rw [hbt] at ht; exact absurd ht (by simp)
        · intro t uid r ht; rw [hbt] at ht; exact absurd ht (by simp)
      · have hbt : bearerToken (some h) = some (h.drop 7) := by simp [bearerToken, hb, he]
        refine ⟨?_, ?_, ?_, ?_, ?_⟩
        · intro hn; rw [hbt] at hn; exact absurd hn (by simp)
        · intro t ht hj
          rw [hbt] at ht
          injection ht with ht
          subst ht
          simp [verifyToken, hb, he, hj]
        · intro t ht hj
          rw [hbt] at ht
          injection ht with ht
          subst ht
          simp [verifyToken, hb, he, hj]
        · intro t uid ht hj hf
          rw [hbt] at ht
          injection ht with ht
          subst ht
          simp [verifyToken, hb, he, hj, hf]
        · intro t uid r ht hj hf
          rw [hbt] at ht
          injection ht with ht
          subst ht
          simp [verifyToken, hb, he, hj, hf]
    · have hbt : bearerToken (some h) = none := by simp [bearerToken, hb]
      refine ⟨fun _ => ?_, ?_, ?_, ?_, ?_⟩
      · simp [verifyToken, hb]
      · intro t ht; rw [hbt] at ht; exact absurd ht (by simp)
      · intro t ht; rw [hbt] at ht; exact absurd ht (by simp)
      · intro t uid ht; rw [hbt] at ht; exact absurd ht (by simp)
      · intro t uid r ht; rw [hbt] at ht; exact absurd ht (by simp)

/-- Witness for C4: a concrete verifier and table exercising the `NO_TOKEN`
rejection, the expired rejection, the inactive-user rejection and the success
case. -/
theorem verifyToken_spec_witness :
    verifyToken (fun _ => JwtOutcome.valid "u1")
        [⟨"u1", "a@b.c", "Ana", "administrador", 1⟩] (some "Token abc".toList) =
      .failure ⟨"Access denied. No token provided.", 401, "NO_TOKEN"⟩ ∧
    verifyToken (fun _ => JwtOutcome.expired)
        [⟨"u1", "a@b.c", "Ana", "administrador", 1⟩] (some "Bearer abc".toList) =
      .failure ⟨"Token expired.", 401, "TOKEN_EXPIRED"⟩ ∧
    verifyToken (fun _ => JwtOutcome.valid "u2")
        [⟨"u2", "d@e.f", "Bo", "gerente", 0⟩] (some "Bearer abc".toList) =
      .failure ⟨"User not found or inactive.", 401, "USER_NOT_FOUND"⟩ ∧
    verifyToken (fun _ => JwtOutcome.valid "u1")
        [⟨"u1", "a@b.c", "Ana", "administrador", 1⟩] (some "Bearer abc".toList) =
      .success ⟨"u1", "a@b.c", "Ana", "administrador"⟩ := by
  refine ⟨?_, ?_, ?_, ?_⟩
  · exact (verifyToken_spec _ _ _).1 (by decide)
  · exact (verifyToken_spec _ _ _).2.2.1 "abc".toList (by decide) rfl
  · exact (verifyToken_spec _ _ _).2.2.2.1 "abc".toList "u2" (by decide) rfl (by decide)
  · exact (verifyToken_spec _ _ _).2.2.2.2 "abc".toList "u1"
      ⟨"u1", "a@b.c", "Ana", "administrador", 1⟩ (by decide) rfl (by decide)

/-! ### Deletion guards (`DELETE /api/categories/:id`, `DELETE /api/subcategories/:id`) -/

/-- A subcategory row: id and parent category reference. -/
structure Subcat where
  id : String
  category_id : String
deriving DecidableEq, Repr

/-- A transaction row as referenced by the deletion guards: id and optional
category/subcategory references (`none` = SQL `NULL`). -/
structure TxnRef where
  id : String
  category_id : Option String
  subcategory_id : Option String
deriving DecidableEq, Repr

/-- The datastore slice the category/subcategory handlers touch. -/
structure CatDB where
  categories : List String
  subcategories : List Subcat
  transactions : List TxnRef
deriving DecidableEq, Repr

/-- `DELETE /api/categories/:id`: 404 when the category does not exist, 400
`CATEGORY_HAS_SUBCATEGORIES` when `COUNT(*)` of subcategories referencing it
is positive, then 400 `CATEGORY_IN_USE` when `COUNT(*)` of transactions
referencing it is positive, otherwise the row is deleted.  The handler
returns the datastore it leaves behind together with the outcome. -/
def deleteCategory (db : CatDB) (id : String) : CatDB × Except AppError Unit :=
  if ¬ db.categories.contains id then
    (db, .error ⟨"Category not found", 404, "CATEGORY_NOT_FOUND"⟩)
  else if 0 < db.subcategories.countP (fun s => s.category_id == id) then
    (db, .error ⟨"Cannot delete category with subcategories", 400, "CATEGORY_HAS_SUBCATEGORIES"⟩)
  else if 0 < db.transactions.countP (fun t => t.category_id == some id) then
    (db, .error ⟨"Cannot delete category used in transactions", 400, "CATEGORY_IN_USE"⟩)
  else
    ({ db with categories := db.categories.filter (fun c => c ≠ id) }, .ok ())

/-- `DELETE /api/subcategories/:id`: 404 when the subcategory does not exist,
400 `SUBCATEGORY_IN_USE` when some transaction references it, otherwise the
row is deleted. -/
def deleteSubcategory (db : CatDB) (id : String) : CatDB × Except AppError Unit :=
  if ¬ db.subcategories.any (fun s => s.id == id) then
    (db, .error ⟨"Subcategory not found", 404, "SUBCATEGORY_NOT_FOUND"⟩)
  else if 0 < db.transactions.countP (fun t => t.subcategory_id == some id) then
    (db, .error ⟨"Cannot delete subcategory used in transactions", 400, "SUBCATEGORY_IN_USE"⟩)
  else
    ({ db with subcategories := db.subcategories.filter (fun s => s.id ≠ id) }, .ok ())

/-- Claim C5: deleting an existing category referenced by a subcategory fails
with 400 `CATEGORY_HAS_SUBCATEGORIES`; one with no subcategories but a
referencing transaction fails with 400 `CATEGORY_IN_USE`; an unreferenced one
is deleted; deleting an existing subcategory referenced by a transaction
fails with 400 `SUBCATEGORY_IN_USE`; and in every failing case the datastore
is left unchanged, so the referenced row is not deleted. -/
theorem deletionGuards_spec (db : CatDB) (cid sid : String)
    (hc : db.categories.contains cid = true)
    (hs : db.subcategories.any (fun s => s.id == sid) = true) :
    ((∃ s ∈ db.subcategories, s.category_id = cid) →
      deleteCategory db cid =
        (db, .error ⟨"Cannot delete category with subcategories", 400,
                     "CATEGORY_HAS_SUBCATEGORIES"⟩)) ∧
    ((∀ s ∈ db.subcategories, s.category_id ≠ cid) →
      (∃ t ∈ db.transactions, t.category_id = some cid) →
      deleteCategory db cid =
        (db, .error ⟨"Cannot delete category used in transactions", 400, "CATEGORY_IN_USE"⟩)) ∧
    ((∀ s ∈ db.subcategories, s.category_id ≠ cid) →
      (∀ t ∈ db.transactions, t.category_id ≠ some cid) →
      deleteCategory db cid =
        ({ db with categories := db.categories.filter (fun c => c ≠ cid) }, .ok ())) ∧
    ((∃ t ∈ db.transactions, t.subcategory_id = some sid) →
      deleteSubcategory db sid =
        (db, .error ⟨"Cannot delete subcategory used in transactions", 400,
                     "SUBCATEGORY_IN_USE"⟩)) := by
  refine ⟨?_, ?_, ?_, ?_⟩
  · intro hsub
    have hcount : 0 < db.subcategories.countP (fun s => s.category_id == cid) := by
      rw [List.countP_pos_iff]
      obtain ⟨s, hmem, heq⟩ := hsub
      exact ⟨s, hmem, by simp [heq]⟩
    rw [deleteCategory, if_neg (by simpa using hc), if_pos hcount]
  · intro hnos htx
    have hcount0 : ¬ 0 < db.subcategories.countP (fun s => s.category_id == cid) := by
      rw [List.countP_pos_iff]
      rintro ⟨s, hmem, heq⟩
      exact hnos s hmem (by simpa using heq)
    have hcount : 0 < db.transactions.countP (fun t => t.category_id == some cid) := by
      rw [List.countP_pos_iff]
      obtain ⟨t, hmem, heq⟩ := htx
      exact ⟨t, hmem, by simp [heq]⟩
    rw [deleteCategory, if_neg (by simpa using hc), if_neg hcount0, if_pos hcount]
  · intro hnos hnot
    have hcount0 : ¬ 0 < db.subcategories.countP (fun s => s.category_id == cid) := by
      rw [List.countP_pos_iff]
      rintro ⟨s, hmem, heq⟩
      exact hnos s hmem (by simpa using heq)
    have hcount1 : ¬ 0 < db.transactions.countP (fun t => t.category_id == some cid) := by
      rw [List.countP_pos_iff]
      rintro ⟨t, hmem, heq⟩
      exact hnot t hmem (by simpa using heq)
    rw [deleteCategory, if_neg (by simpa using hc), if_neg hcount0, if_neg hcount1]
  · intro htx
    have hcount : 0 < db.transactions.countP (fun t => t.subcategory_id == some sid) := by
      rw [List.countP_pos_iff]
      obtain ⟨t, hmem, heq⟩ := htx
      exact ⟨t, hmem, by simp [heq]⟩
    rw [deleteSubcategory, if_neg (by simpa using hs), if_pos hcount]

/-- Witness for C5 on a concrete datastore with one referenced category, one
referenced subcategory, and a freely deletable category. -/
theorem deletionGuards_spec_witness :
    deleteCategory ⟨["c1", "c2"], [⟨"s1", "c1"⟩], [⟨"txn-001", some "c1", some "s1"⟩]⟩ "c1" =
      (⟨["c1", "c2"], [⟨"s1", "c1"⟩], [⟨"txn-001", some "c1", some "s1"⟩]⟩,
       .error ⟨"Cannot delete category with subcategories", 400, "CATEGORY_HAS_SUBCATEGORIES"⟩) ∧
    deleteCategory ⟨["c1", "c2"], [⟨"s1", "c1"⟩], [⟨"txn-001", some "c1", some "s1"⟩]⟩ "c2" =
      (⟨["c1"], [⟨"s1", "c1"⟩], [⟨"txn-001", some "c1", some "s1"⟩]⟩, .ok ()) ∧
    deleteSubcategory ⟨["c1", "c2"], [⟨"s1", "c1"⟩], [⟨"txn-001", some "c1", some "s1"⟩]⟩ "s1" =
      (⟨["c1", "c2"], [⟨"s1", "c1"⟩], [⟨"txn-001", some "c1", some "s1"⟩]⟩,
       .error ⟨"Cannot delete subcategory used in transactions", 400, "SUBCATEGORY_IN_USE"⟩) := by
  refine ⟨?_, ?_, ?_⟩
  · exact (deletionGuards_spec (⟨["c1", "c2"], [⟨"s1", "c1"⟩], [⟨"txn-001", some "c1", some "s1"⟩]⟩ : CatDB) "c1" "s1" (by decide) (by decide)).1
      ⟨⟨"s1", "c1"⟩, by decide, rfl⟩
  · have h := (deletionGuards_spec (⟨["c1", "c2"], [⟨"s1", "c1"⟩], [⟨"txn-001", some "c1", some "s1"⟩]⟩ : CatDB) "c2" "s1" (by decide) (by decide)).2.2.1
      (by intro s hm; fin_cases hm; decide) (by intro t hm; fin_cases hm; decide)
    rw [h]
    rfl
  · exact (deletionGuards_spec (⟨["c1", "c2"], [⟨"s1", "c1"⟩], [⟨"txn-001", some "c1", some "s1"⟩]⟩ : CatDB) "c1" "s1" (by decide) (by decide)).2.2.2
      ⟨⟨"txn-001", some "c1", some "s1"⟩, by decide, rfl⟩

/-! ### Admin self-protection (`userRoutes` delete / deactivate / reset-password) -/

/-- A profile row as read by the user handlers: id, email, active status. -/
structure ProfileRow where
  id : String
  email : String
  status : Nat
deriving DecidableEq, Repr

/-- A credential row of the `users` table. -/
structure UserCred where
  id : String
  email : String
  password_hash : String
deriving DecidableEq, Repr

/-- The datastore slice the admin user endpoints touch. -/
structure UserDB where
  users : List UserCred
  profiles : List ProfileRow
deriving DecidableEq, Repr

/-- `DELETE /api/users/:id` (hard delete) for an authenticated admin with id
`selfId`: 404 when no profile row has the id, 400 `CANNOT_DELETE_SELF` when
`:id` equals the caller's own id, otherwise the profile row and the user row
with the profile's email are deleted. -/
def deleteUserHandler (db : UserDB) (selfId id : String) : UserDB × Except AppError Unit :=
  match db.profiles.find? (fun p => p.id == id) with
  | none => (db, .error ⟨"User not found", 404, "USER_NOT_FOUND"⟩)
  | some prof =>
    if id == selfId then
      (db, .error ⟨"Cannot delete your own account", 400, "CANNOT_DELETE_SELF"⟩)
    else
      ({ users := db.users.filter (fun u => u.email ≠ prof.email),
         profiles := db.profiles.filter (fun p => p.id ≠ id) }, .ok ())

/-- `DELETE /api/users/:id/deactivate`: 404 when no profile row has the id,
400 `CANNOT_DEACTIVATE_SELF` on the caller's own id, otherwise the profile's
status is set to 0. -/
def deactivateUserHandler (db : UserDB) (selfId id : String) : UserDB × Except AppError Unit :=
  if ¬ db.profiles.any (fun p => p.id == id) then
    (db, .error ⟨"User not found", 404, "USER_NOT_FOUND"⟩)
  else if id == selfId then
    (db, .error ⟨"Cannot deactivate your own account", 400, "CANNOT_DEACTIVATE_SELF"⟩)
  else
    ({ db with profiles :=
        db.profiles.map (fun p => if p.id == id then { p with status := 0 } else p) },
     .ok ())

/-- `PUT /api/users/:id/reset-password` with the bcrypt hash abstracted as a
function: 400 `INVALID_PASSWORD` when the new password is absent or shorter
than 8 characters, 404 when no user row has the id, 400
`CANNOT_RESET_OWN_PASSWORD` on the caller's own id, otherwise the user's
password hash is replaced. -/
def resetPasswordHandler (hash : String → String) (db : UserDB) (selfId id : String)
    (newPassword : Option String) : UserDB × Except AppError Unit :=
  match newPassword with
  | none => (db, .error ⟨"New password must be at least 8 characters long", 400, "INVALID_PASSWORD"⟩)
  | some pw =>
    if pw.length < 8 then
      (db, .error ⟨"New password must be at least 8 characters long", 400, "INVALID_PASSWORD"⟩)
    else if ¬ db.users.any (fun u => u.id == id) then
      (db, .error ⟨"User not found", 404, "USER_NOT_FOUND"⟩)
    else if id == selfId then
      (db, .error ⟨"Use change-password endpoint to update your own password", 400,
                   "CANNOT_RESET_OWN_PASSWORD"⟩)
    else
      ({ db with users :=
          db.users.map (fun u => if u.id == id then { u with password_hash := hash pw } else u) },
       .ok ())

/-- Claim C6: for an authenticated admin whose own id equals the `:id`
parameter (so the existence checks pass, and with a well-formed new password
for the reset flow), hard delete fails with 400 `CANNOT_DELETE_SELF`,
deactivation fails with 400 `CANNOT_DEACTIVATE_SELF`, password reset fails
with 400 `CANNOT_RESET_OWN_PASSWORD`, and in each case the returned datastore
is the untouched input, so no write is performed. -/
theorem selfProtection_spec (hash : String → String) (db : UserDB) (selfId : String)
    (pw : String)
    (hp : db.profiles.any (fun p => p.id == selfId) = true)
    (hu : db.users.any (fun u => u.id == selfId) = true)
    (hpw : 8 ≤ pw.length) :
    deleteUserHandler db selfId selfId =
      (db, .error ⟨"Cannot delete your own account", 400, "CANNOT_DELETE_SELF"⟩) ∧
    deactivateUserHandler db selfId selfId =
      (db, .error ⟨"Cannot deactivate your own account", 400, "CANNOT_DEACTIVATE_SELF"⟩) ∧
    resetPasswordHandler hash db selfId selfId (some pw) =
      (db, .error ⟨"Use change-password endpoint to update your own password", 400,
                   "CANNOT_RESET_OWN_PASSWORD"⟩) := by
  refine ⟨?_, ?_, ?_⟩
  · rw [deleteUserHandler]
    have : ∃ p, db.profiles.find? (fun p => p.id == selfId) = some p := by
      rw [← Option.isSome_iff_exists, List.find?_isSome]
      simpa [List.any_eq_true] using hp
    obtain ⟨p, hfind⟩ := this
    rw [hfind]
    simp
  · rw [deactivateUserHandler, if_neg (by simp [hp])]
    simp
  · rw [resetPasswordHandler]
    rw [if_neg (by omega), if_neg (by simp [hu])]
    simp

/-- Witness for C6 on a one-admin datastore. -/
theorem selfProtection_spec_witness :
    deleteUserHandler ⟨[⟨"u1", "a@b.c", "h"⟩], [⟨"u1", "a@b.c", 1⟩]⟩ "u1" "u1" =
      (⟨[⟨"u1", "a@b.c", "h"⟩], [⟨"u1", "a@b.c", 1⟩]⟩,
       .error ⟨"Cannot delete your own account", 400, "CANNOT_DELETE_SELF"⟩) ∧
    deactivateUserHandler ⟨[⟨"u1", "a@b.c", "h"⟩], [⟨"u1", "a@b.c", 1⟩]⟩ "u1" "u1" =
      (⟨[⟨"u1", "a@b.c", "h"⟩], [⟨"u1", "a@b.c", 1⟩]⟩,
       .error ⟨"Cannot deactivate your own account", 400, "CANNOT_DEACTIVATE_SELF"⟩) ∧
    resetPasswordHandler (fun s => s) ⟨[⟨"u1", "a@b.c", "h"⟩], [⟨"u1", "a@b.c", 1⟩]⟩
        "u1" "u1" (some "longenough") =
      (⟨[⟨"u1", "a@b.c", "h"⟩], [⟨"u1", "a@b.c", 1⟩]⟩,
       .error ⟨"Use change-password endpoint to update your own password", 400,
               "CANNOT_RESET_OWN_PASSWORD"⟩) :=
  selfProtection_spec (fun s => s) ⟨[⟨"u1", "a@b.c", "h"⟩], [⟨"u1", "a@b.c", 1⟩]⟩ "u1"
    "longenough" (by decide) (by decide) (by decide)

/-! ### Receipt file lifecycle (`transactionRoutes` update / delete / remove-file) -/

/-- A full transaction row as the transaction handlers read and write it
(timestamps are not modelled). -/
structure TxnRow where
  id : String
  amount : Int
  type : String
  description : String
  date : String
  category_id : Option String
  subcategory_id : Option String
  receipt_url : Option String
deriving DecidableEq, Repr

/-- The request body of `POST`/`PUT /api/transactions`; `category_id` and
`subcategory_id` use `none` for an absent (falsy) value, and
`comprovativo_url` keeps the full `undefined`/`null`/string distinction the
handler inspects. -/
structure TxnBody where
  amount : Int
  type : String
  description : String
  date : String
  category_id : Option String
  subcategory_id : Option String
  comprovativo_url : FilterVal
deriving DecidableEq, Repr

/-- The uploads directory: the files present, and the files for which
`fs.unlinkSync` raises (e.g. permissions) — the failure oracle. -/
structure UploadsDir where
  files : List String
  locked : List String
deriving DecidableEq, Repr

/-- The `if (fs.existsSync(p)) fs.unlinkSync(p)` step: returns the resulting
directory and whether the step completed without an exception (a missing
file is not an exception; a locked file is). -/
def tryDeleteFile (fs : UploadsDir) (f : String) : UploadsDir × Bool :=
  if fs.files.contains f then
    if fs.locked.contains f then (fs, false)
    else ({ fs with files := fs.files.filter (fun x => x ≠ f) }, true)
  else (fs, true)

/-- `url.split('/').pop()`: the last path component of a receipt URL. -/
def lastComp (url : String) : String :=
  ((jsSplit '/' url.toList).getLastD []).asString

/-- JavaScript truthiness of a `FilterVal` (only non-empty strings are
truthy among the values a receipt-URL field takes). -/
def jsTruthyVal : FilterVal → Bool
  | .vStr s => !s.isEmpty
  | _ => false

/-- Truthiness of a nullable DB string column. -/
def truthyOptStr : Option String → Bool
  | some s => !s.isEmpty
  | none => false

/-- `comprovativo_url || null`: the value stored in the `receipt_url`
column. -/
def jsValToDb : FilterVal → Option String
  | .vStr s => if s.isEmpty then none else some s
  | _ => none

/-- JavaScript `===` between the body value and the stored column value. -/
def strictEqVal : FilterVal → Option String → Bool
  | .vStr s, some t => s == t
  | _, _ => false

/-- The datastore-plus-filesystem state the transaction handlers touch. -/
structure AppState where
  categories : List String
  subcategories : List Subcat
  transactions : List TxnRow
  uploads : UploadsDir
deriving DecidableEq, Repr

/-- The category-validation failure test of the create/update handlers:
a provided category id with no matching row. -/
def categoryMissing (st : AppState) (cid : Option String) : Bool :=
  match cid with
  | none => false
  | some c => ¬ st.categories.contains c

/-- The subcategory-validation failure test: a provided subcategory id with
no row matching it (and, when a category is also provided, belonging to that
category). -/
def subcategoryMissing (st : AppState) (cid sid : Option String) : Bool :=
  match sid with
  | none => false
  | some s =>
    ¬ st.subcategories.any (fun sc =>
        sc.id == s &&
          (match cid with
           | some c => sc.category_id == c
           | none => true))

/-- The `UPDATE transactions SET … WHERE id = ?` write of the update
handler. -/
def txnUpdateMap (st : AppState) (id : String) (b : TxnBody) : List TxnRow :=
  st.transactions.map (fun t =>
    if t.id == id then
      { t with amount := b.amount, type := b.type, description := b.description,
               date := b.date, category_id := b.category_id,
               subcategory_id := b.subcategory_id,
               receipt_url := jsValToDb b.comprovativo_url }
    else t)

/-- `PUT /api/transactions/:id`: 404 when the transaction does not exist or a
provided category/subcategory fails validation; otherwise the old receipt
file is deleted best-effort when the new receipt URL is a different truthy
value (first block) or explicitly cleared (`null`/empty, second block) — the
deletion outcome is ignored — and the row is updated. -/
def updateTransaction (st : AppState) (id : String) (b : TxnBody) :
    AppState × Except AppError Unit :=
  match st.transactions.find? (fun t => t.id == id) with
  | none => (st, .error ⟨"Transaction not found", 404, "TRANSACTION_NOT_FOUND"⟩)
  | some cur =>
    if categoryMissing st b.category_id then
      (st, .error ⟨"Category not found", 404, "CATEGORY_NOT_FOUND"⟩)
    else if subcategoryMissing st b.category_id b.subcategory_id then
      (st, .error ⟨"Subcategory not found or does not belong to the specified category", 404,
                   "SUBCATEGORY_NOT_FOUND"⟩)
    else
      let fs1 :=
        if jsTruthyVal b.comprovativo_url && truthyOptStr cur.receipt_url &&
            !strictEqVal b.comprovativo_url cur.receipt_url then
          (tryDeleteFile st.uploads (lastComp (cur.receipt_url.getD ""))).1
        else st.uploads
      let fs2 :=
        if (b.comprovativo_url == FilterVal.vNull || b.comprovativo_url == FilterVal.vStr "") &&
            truthyOptStr cur.receipt_url then
          (tryDeleteFile fs1 (lastComp (cur.receipt_url.getD ""))).1
        else fs1
      ({ st with uploads := fs2, transactions := txnUpdateMap st id b }, .ok ())

/-- `DELETE /api/transactions/:id`: 404 when the transaction does not exist;
otherwise its receipt file (if any) is deleted best-effort — the outcome is
ignored — and the row is deleted. -/
def deleteTransaction (st : AppState) (id : String) : AppState × Except AppError Unit :=
  match st.transactions.find? (fun t => t.id == id) with
  | none => (st, .error ⟨"Transaction not found", 404, "TRANSACTION_NOT_FOUND"⟩)
  | some cur =>
    let fs1 :=
      if truthyOptStr cur.receipt_url then
        (tryDeleteFile st.uploads (lastComp (cur.receipt_url.getD ""))).1
      else st.uploads
    ({ st with uploads := fs1,
               transactions := st.transactions.filter (fun t => t.id ≠ id) }, .ok ())

/-- `DELETE /api/transactions/:id/file`: 404 when the transaction does not
exist, 400 `NO_FILE_ATTACHED` without a receipt URL; a file-deletion
exception is fatal (500 `FILE_DELETE_ERROR`, nothing changed); otherwise the
file is removed and the receipt URL cleared. -/
def removeTransactionFile (st : AppState) (id : String) : AppState × Except AppError Unit :=
  match st.transactions.find? (fun t => t.id == id) with
  | none => (st, .error ⟨"Transaction not found", 404, "TRANSACTION_NOT_FOUND"⟩)
  | some cur =>
    if ¬ truthyOptStr cur.receipt_url then
      (st, .error ⟨"Transaction has no attached file", 400, "NO_FILE_ATTACHED"⟩)
    else
      let r := tryDeleteFile st.uploads (lastComp (cur.receipt_url.getD ""))
      if r.2 then
        ({ st with uploads := r.1,
                   transactions := st.transactions.map (fun t =>
                     if t.id == id then { t with receipt_url := none } else t) },
         .ok ())
      else
        (st, .error ⟨"Failed to delete file", 500, "FILE_DELETE_ERROR"⟩)

theorem jsTruthyVal_eq_true {v : FilterVal} (h : jsTruthyVal v = true) :
    ∃ s, v = FilterVal.vStr s ∧ s.isEmpty = false := by
  cases v with
  | vUndef => simp [jsTruthyVal] at h
  | vNull => simp [jsTruthyVal] at h
  | vStr s => exact ⟨s, rfl, by simpa [jsTruthyVal] using h⟩

/-- Claim C7: on transaction update, when the new receipt URL is a different
truthy value than the stored one (or clears it), the old stored file is
deleted best-effort — a locked (failing) file leaves the uploads directory
untouched yet the row update still proceeds, and a deletable file is removed
— and the same best-effort rule holds for transaction deletion; by contrast
the dedicated remove-file endpoint turns a file-deletion failure into a 500
`FILE_DELETE_ERROR` with the state, including the stored receipt URL,
unchanged. -/
theorem receiptLifecycle_spec (st : AppState) (id : String) (b : TxnBody) (cur : TxnRow)
    (hfind : st.transactions.find? (fun t => t.id == id) = some cur)
    (hrec : truthyOptStr cur.receipt_url = true)
    (hcatOK : categoryMissing st b.category_id = false)
    (hsubOK : subcategoryMissing st b.category_id b.subcategory_id = false) :
    (jsTruthyVal b.comprovativo_url = true →
     strictEqVal b.comprovativo_url cur.receipt_url = false →
     st.uploads.files.contains (lastComp (cur.receipt_url.getD "")) = true →
     st.uploads.locked.contains (lastComp (cur.receipt_url.getD "")) = true →
      updateTransaction st id b =
        ({ st with transactions := txnUpdateMap st id b }, .ok ())) ∧
    (jsTruthyVal b.comprovativo_url = true →
     strictEqVal b.comprovativo_url cur.receipt_url = false →
     st.uploads.files.contains (lastComp (cur.receipt_url.getD "")) = true →
     st.uploads.locked.contains (lastComp (cur.receipt_url.getD "")) = false →
      updateTransaction st id b =
        ({ st with
            uploads := { st.uploads with
              files := st.uploads.files.filter (fun x => x ≠ lastComp (cur.receipt_url.getD "")) },
            transactions := txnUpdateMap st id b }, .ok ())) ∧
    (b.comprovativo_url = FilterVal.vNull →
     st.uploads.files.contains (lastComp (cur.receipt_url.getD "")) = true →
     st.uploads.locked.contains (lastComp (cur.receipt_url.getD "")) = true →
      updateTransaction st id b =
        ({ st with transactions := txnUpdateMap st id b }, .ok ())) ∧
    (st.uploads.files.contains (lastComp (cur.receipt_url.getD "")) = true →
     st.uploads.locked.contains (lastComp (cur.receipt_url.getD "")) = true →
      deleteTransaction st id =
        ({ st with transactions := st.transactions.filter (fun t => t.id ≠ id) }, .ok ())) ∧
    (st.uploads.files.contains (lastComp (cur.receipt_url.getD "")) = true →
     st.uploads.locked.contains (lastComp (cur.receipt_url.getD "")) = true →
      removeTransactionFile st id =
        (st, .error ⟨"Failed to delete file", 500, "FILE_DELETE_ERROR"⟩)) := by
  refine ⟨?_, ?_, ?_, ?_, ?_⟩
  · intro h1 h2 hmem hlock
    obtain ⟨s, hv, hsne⟩ := jsTruthyVal_eq_true h1
    simp only [updateTransaction, hfind]
    rw [if_neg (by simp [hcatOK]), if_neg (by simp [hsubOK])]
    simp only [h1, h2, hrec, Bool.and_true, Bool.true_and, Bool.not_false, if_true,
      tryDeleteFile, hmem, hlock]
    simp [hv, hsne, String.isEmpty_iff]
  · intro h1 h2 hmem hlock
    obtain ⟨s, hv, hsne⟩ := jsTruthyVal_eq_true h1
    simp only [updateTransaction, hfind]
    rw [if_neg (by simp [hcatOK]), if_neg (by simp [hsubOK])]
    simp only [h1, h2, hrec, Bool.and_true, Bool.true_and, Bool.not_false, if_true,
      tryDeleteFile, hmem, hlock]
    simp [hv, hsne, String.isEmpty_iff]
  · intro hv hmem hlock
    simp only [updateTransaction, hfind]
    rw [if_neg (by simp [hcatOK]), if_neg (by simp [hsubOK])]
    simp only [hv, hrec, jsTruthyVal, Bool.false_and, Bool.and_true, if_false,
      tryDeleteFile, hmem, hlock]
    have hmem2 : lastComp (cur.receipt_url.getD "") ∈ st.uploads.files := by simpa using hmem
    have hlock2 : lastComp (cur.receipt_url.getD "") ∈ st.uploads.locked := by simpa using hlock
    simp [hmem2, hlock2]
  · intro hmem hlock
    simp only [deleteTransaction, hfind]
    simp only [hrec, if_true, tryDeleteFile, hmem, hlock, if_pos]
  · intro hmem hlock
    simp only [removeTransactionFile, hfind]
    rw [if_neg (by simp [hrec])]
    simp only [tryDeleteFile, hmem, hlock, if_pos]
    simp

/-- Witness for C7: a transaction with receipt `/uploads/r1.png` whose file
deletion fails (locked); the update to a new receipt URL still succeeds and
rewrites the row, while the dedicated remove-file endpoint fails with 500
`FILE_DELETE_ERROR` leaving everything unchanged. -/
theorem receiptLifecycle_spec_witness :
    updateTransaction
        ⟨["c1"], [⟨"s1", "c1"⟩],
         [⟨"txn-001", 10, "entrada", "d1", "2024-01-01", some "c1", some "s1",
           some "/uploads/r1.png"⟩],
         ⟨["r1.png"], ["r1.png"]⟩⟩
        "txn-001"
        ⟨25, "saida", "d2", "2024-02-02", some "c1", some "s1",
         FilterVal.vStr "/uploads/r2.png"⟩ =
      (⟨["c1"], [⟨"s1", "c1"⟩],
        [⟨"txn-001", 25, "saida", "d2", "2024-02-02", some "c1", some "s1",
          some "/uploads/r2.png"⟩],
        ⟨["r1.png"], ["r1.png"]⟩⟩, .ok ()) ∧
    removeTransactionFile
        ⟨["c1"], [⟨"s1", "c1"⟩],
         [⟨"txn-001", 10, "entrada", "d1", "2024-01-01", some "c1", some "s1",
           some "/uploads/r1.png"⟩],
         ⟨["r1.png"], ["r1.png"]⟩⟩
        "txn-001" =
      (⟨["c1"], [⟨"s1", "c1"⟩],
        [⟨"txn-001", 10, "entrada", "d1", "2024-01-01", some "c1", some "s1",
          some "/uploads/r1.png"⟩],
        ⟨["r1.png"], ["r1.png"]⟩⟩,
       .error ⟨"Failed to delete file", 500, "FILE_DELETE_ERROR"⟩) := by
  constructor
  · have h := (receiptLifecycle_spec
        ⟨["c1"], [⟨"s1", "c1"⟩],
         [⟨"txn-001", 10, "entrada", "d1", "2024-01-01", some "c1", some "s1",
           some "/uploads/r1.png"⟩],
         ⟨["r1.png"], ["r1.png"]⟩⟩
        "txn-001"
        ⟨25, "saida", "d2", "2024-02-02", some "c1", some "s1",
         FilterVal.vStr "/uploads/r2.png"⟩
        ⟨"txn-001", 10, "entrada", "d1", "2024-01-01", some "c1", some "s1",
         some "/uploads/r1.png"⟩
        (by decide) (by decide) (by decide) (by decide)).1
        (by decide) (by decide) (by decide) (by decide)
    rw [h]
    rfl
  · have h := (receiptLifecycle_spec
        ⟨["c1"], [⟨"s1", "c1"⟩],
         [⟨"txn-001", 10, "entrada", "d1", "2024-01-01", some "c1", some "s1",
           some "/uploads/r1.png"⟩],
         ⟨["r1.png"], ["r1.png"]⟩⟩
        "txn-001"
        ⟨25, "saida", "d2", "2024-02-02", some "c1", some "s1",
         FilterVal.vStr "/uploads/r2.png"⟩
        ⟨"txn-001", 10, "entrada", "d1", "2024-01-01", some "c1", some "s1",
         some "/uploads/r1.png"⟩
        (by decide) (by decide) (by decide) (by decide)).2.2.2.2
        (by decide) (by decide)
    rw [h]

/-! ### Pagination (`responseUtils.calculatePagination`, `GET /api/users`) -/

/-- `Math.ceil(a / b)` for non-negative integers and positive `b` (the
division is exact rational division, then ceiling). -/
def mathCeilDiv (a b : Nat) : Nat := (a + b - 1) / b

/-- The pagination envelope built by `calculatePagination`. -/
structure Pagination where
  currentPage : Nat
  totalPages : Nat
  totalItems : Nat
  itemsPerPage : Nat
  hasNextPage : Bool
  hasPrevPage : Bool
deriving DecidableEq, Repr

/-- `calculatePagination(page, limit, total)`. -/
def calculatePagination (page limit total : Nat) : Pagination :=
  let totalPages := mathCeilDiv total limit
  { currentPage := page, totalPages := totalPages, totalItems := total,
    itemsPerPage := limit, hasNextPage := decide (page < totalPages),
    hasPrevPage := decide (1 < page) }

/-- `parseInt(req.query.page) || 1`: absent (or `NaN`) and `0` are falsy and
fall back to the default. -/
def pageParam (q : Option Nat) (dflt : Nat) : Nat :=
  match q with
  | none => dflt
  | some n => if n = 0 then dflt else n

/-- The paginated list response of `GET /api/users`: `offset = (page-1)*limit`,
rows are taken from the default ordering with `LIMIT limit OFFSET offset`
(embedded as `drop`/`take` on the ordered row list), and
`totalPages = Math.ceil(total / limit)`. -/
structure PageResult (α : Type) where
  data : List α
  page : Nat
  limit : Nat
  total : Nat
  totalPages : Nat
deriving Repr

/-- `GET /api/users` pagination over the rows in the resource's default
order. -/
def listUsers {α : Type} (rows : List α) (page limit : Nat) : PageResult α :=
  let offset := (page - 1) * limit
  { data := (rows.drop offset).take limit,
    page := page, limit := limit, total := rows.length,
    totalPages := mathCeilDiv rows.length limit }

/-- Claim C8: for every paginated list request with `page ≥ 1` and `limit`
in 1–100 (defaults 1 and 10 applied when the query parameters are absent):
the page data is the rows from offset `(page−1)·limit` capped at `limit`
items in the resource's default ordering, `totalPages` is the ceiling of
`total/limit` — stated both as `⌈total/limit⌉` and by its defining property:
the least `c` with `total ≤ limit·c` — the `i`-th returned item is the
`offset+i`-th row, and the absent-parameter defaults are 1 and 10. -/
theorem pagination_spec {α : Type} (rows : List α) (p l : Nat)
    (hp : 1 ≤ p) (hl1 : 1 ≤ l) (hl2 : l ≤ 100) :
    (listUsers rows p l).data = (rows.drop ((p - 1) * l)).take l ∧
    (listUsers rows p l).data.length ≤ l ∧
    (listUsers rows p l).totalPages = rows.length ⌈/⌉ l ∧
    (∀ c : Nat, (calculatePagination p l rows.length).totalPages ≤ c ↔ rows.length ≤ l * c) ∧
    (∀ i : Nat, ∀ h : i < (listUsers rows p l).data.length,
      ∃ h2 : (p - 1) * l + i < rows.length,
        (listUsers rows p l).data.get ⟨i, h⟩ = rows.get ⟨(p - 1) * l + i, h2⟩) ∧
    pageParam none 1 = 1 ∧ pageParam none 10 = 10 := by
  refine ⟨rfl, ?_, rfl, ?_, ?_, rfl, rfl⟩
  · simp [listUsers]
  · intro c
    have : (calculatePagination p l rows.length).totalPages = rows.length ⌈/⌉ l := rfl
    rw [this]
    exact ceilDiv_le_iff_le_mul (by exact_mod_cast hl1)
  · intro i h
    have hlen : i < (rows.drop ((p - 1) * l)).length := by
      have := h
      simp only [listUsers, List.length_take] at this
      omega
    have h2 : (p - 1) * l + i < rows.length := by
      rw [List.length_drop] at hlen
      omega
    refine ⟨h2, ?_⟩
    show ((rows.drop ((p - 1) * l)).take l).get ⟨i, h⟩ = _
    simp only [List.get_eq_getElem]
    rw [List.getElem_take, List.getElem_drop]

/-- Witness for C8 at the spec's example: `page=2`, `limit=10` over 25 items
returns the 11th–20th items with `totalPages = 3` (and 3 is tight). -/
theorem pagination_spec_witness :
    (listUsers (List.range 25) 2 10).data = [10, 11, 12, 13, 14, 15, 16, 17, 18, 19] ∧
    (listUsers (List.range 25) 2 10).data.length ≤ 10 ∧
    (listUsers (List.range 25) 2 10).totalPages = 3 ∧
    (calculatePagination 2 10 25).totalPages ≤ 3 ∧
    ¬ (calculatePagination 2 10 25).totalPages ≤ 2 := by
  have h := pagination_spec (List.range 25) 2 10 (by decide) (by decide) (by decide)
  refine ⟨?_, h.2.1, ?_, ?_, ?_⟩
  · rw [h.1]; decide
  · rw [h.2.2.1]; decide
  · exact (h.2.2.2.1 3).mpr (by decide)
  · intro hc
    exact absurd ((h.2.2.2.1 2).mp hc) (by decide)

/-! ### Password-hash scrubbing (`authUtils.formatUserResponse`, login response) -/

/-- `formatUserResponse(user)`: rest-destructuring away the `password_hash`
property.  A JavaScript object is embedded as an association list in key
insertion order. -/
def formatUserResponse {α : Type} (user : List (String × α)) : List (String × α) :=
  user.filter (fun kv => kv.1 ≠ "password_hash")

/-- The `user` object of the login response: the handler rebuilds it from
the row's id, email, name and role and passes it through
`formatUserResponse`. -/
def loginUserObject (idv email name role : String) : List (String × String) :=
  formatUserResponse [("id", idv), ("email", email), ("name", name), ("role", role)]

theorem lookup_formatUserResponse {α : Type} (user : List (String × α)) (k : String)
    (hk : k ≠ "password_hash") :
    (formatUserResponse user).lookup k = user.lookup k := by
  induction user with
  | nil => rfl
  | cons kv rest ih =>
    cases kv with
    | mk k2 v =>
      by_cases hkv : k2 = "password_hash"
      · have hne2 : (k == k2) = false :=
          beq_eq_false_iff_ne.mpr (fun e => hk (e.trans hkv))
        rw [formatUserResponse, List.filter_cons_of_neg (by simp [hkv])]
        rw [formatUserResponse] at ih
        rw [ih, List.lookup, hne2]
      · rw [formatUserResponse, List.filter_cons_of_pos (by simp [hkv])]
        rw [formatUserResponse] at ih
        rw [List.lookup, List.lookup]
        cases he : k == k2 with
        | true => rfl
        | false => exact ih

/-- Claim C9: `formatUserResponse` returns the input object minus the
`password_hash` key — no returned entry has that key, every other entry is
kept unchanged and in order, and lookups of other keys are unaffected —
and consequently the login response's user object never contains a
password hash, whatever the database row held. -/
theorem formatUserResponse_spec {α : Type} (user : List (String × α)) :
    (∀ kv ∈ formatUserResponse user, kv.1 ≠ "password_hash") ∧
    (formatUserResponse user).lookup "password_hash" = none ∧
    (∀ kv ∈ user, kv.1 ≠ "password_hash" → kv ∈ formatUserResponse user) ∧
    (formatUserResponse user).Sublist user ∧
    (∀ k : String, k ≠ "password_hash" →
      (formatUserResponse user).lookup k = user.lookup k) ∧
    (∀ idv email name role : String,
      (loginUserObject idv email name role).lookup "password_hash" = none) := by
  refine ⟨?_, ?_, ?_, ?_, ?_, ?_⟩
  · intro kv hkv
    have := List.of_mem_filter hkv
    simpa using this
  · rw [List.lookup_eq_none_iff]
    intro kv hkv
    have h2 : kv.1 ≠ "password_hash" := by simpa using List.of_mem_filter hkv
    simpa [bne_iff_ne] using fun e => h2 e.symm
  · intro kv hkv hne
    exact List.mem_filter.mpr ⟨hkv, by simpa using hne⟩
  · exact List.filter_sublist _
  · intro k hk
    exact lookup_formatUserResponse user k hk
  · intro idv email name role
    rfl

/-- Witness for C9: scrubbing a row that does carry a `password_hash`. -/
theorem formatUserResponse_spec_witness :
    formatUserResponse [("id", "u1"), ("password_hash", "secret"), ("name", "Ana")] =
      [("id", "u1"), ("name", "Ana")] ∧
    (formatUserResponse
        [("id", "u1"), ("password_hash", "secret"), ("name", "Ana")]).lookup "password_hash" =
      none ∧
    (formatUserResponse
        [("id", "u1"), ("password_hash", "secret"), ("name", "Ana")]).lookup "name" =
      [("id", "u1"), ("password_hash", "secret"), ("name", "Ana")].lookup "name" := by
  refine ⟨by decide, ?_, ?_⟩
  · exact (formatUserResponse_spec
      [("id", "u1"), ("password_hash", "secret"), ("name", "Ana")]).2.1
  · exact (formatUserResponse_spec
      [("id", "u1"), ("password_hash", "secret"), ("name", "Ana")]).2.2.2.2.1 "name"
      (by decide)

/-! ### Filename validation on the file endpoints (`fileRoutes`) -/

/-- The rejection test shared by the file info, delete and view endpoints:
`!filename || filename.includes('..') || filename.includes('/') ||
filename.includes('\\')`. -/
def invalidFilename (f : String) : Bool :=
  f.isEmpty || jsIncludes "..".toList f.toList || jsIncludes "/".toList f.toList ||
    jsIncludes "\\".toList f.toList

/-- `path.join(dir, f)` for a validated single component: the only
normalisation that can apply to a separator-free, `..`-free component is
collapsing the component `.` into the directory itself. -/
def pathJoin (dir f : String) : String :=
  if f = "." then dir else dir ++ "/" ++ f

/-- `DELETE /api/files/:filename`, with the filesystem embedded as the list
of existing paths: reject invalid filenames with 400 `INVALID_FILENAME`
before any filesystem access, 404 when the joined path does not exist,
otherwise unlink it. -/
def deleteFileRoute (fs : List String) (dir f : String) : List String × Except AppError Unit :=
  if invalidFilename f then
    (fs, .error ⟨"Invalid filename", 400, "INVALID_FILENAME"⟩)
  else
    let filePath := pathJoin dir f
    if fs.contains filePath then (fs.filter (fun p => p ≠ filePath), .ok ())
    else (fs, .error ⟨"File not found", 404, "FILE_NOT_FOUND"⟩)

/-- `GET /api/files/:filename` (file info): same validation, then the stats
of the joined path (returned here as the path accessed). -/
def fileInfoRoute (fs : List String) (dir f : String) : Except AppError String :=
  if invalidFilename f then .error ⟨"Invalid filename", 400, "INVALID_FILENAME"⟩
  else
    let filePath := pathJoin dir f
    if fs.contains filePath then .ok filePath
    else .error ⟨"File not found", 404, "FILE_NOT_FOUND"⟩

/-- `GET /api/files/view/:filename`: same validation, then the joined path is
streamed (returned here as the path accessed; headers and the content type
sniffed from the extension are not modelled). -/
def viewFileRoute (fs : List String) (dir f : String) : Except AppError String :=
  if invalidFilename f then .error ⟨"Invalid filename", 400, "INVALID_FILENAME"⟩
  else
    let filePath := pathJoin dir f
    if fs.contains filePath then .ok filePath
    else .error ⟨"File not found", 404, "FILE_NOT_FOUND"⟩

/-- Claim C10: an empty filename or one containing `..`, `/` or `\\` is
rejected by all three file endpoints with 400 `INVALID_FILENAME` before any
filesystem access (the filesystem is left untouched and no path is
resolved); otherwise every path the endpoints access is the upload directory
joined with the single separator-free, `..`-free component (or the directory
itself for the component `.`), so it never escapes the directory. -/
theorem filenameSafety_spec (fs : List String) (dir f : String) :
    (invalidFilename f = true →
      deleteFileRoute fs dir f = (fs, .error ⟨"Invalid filename", 400, "INVALID_FILENAME"⟩) ∧
      fileInfoRoute fs dir f = .error ⟨"Invalid filename", 400, "INVALID_FILENAME"⟩ ∧
      viewFileRoute fs dir f = .error ⟨"Invalid filename", 400, "INVALID_FILENAME"⟩) ∧
    (invalidFilename f = false →
      (f ≠ "" ∧ jsIncludes "..".toList f.toList = false ∧
       jsIncludes "/".toList f.toList = false ∧ jsIncludes "\\".toList f.toList = false) ∧
      (f = "." ∧ pathJoin dir f = dir ∨ pathJoin dir f = dir ++ "/" ++ f) ∧
      ((deleteFileRoute fs dir f).1 = fs ∨
        (deleteFileRoute fs dir f).1 = fs.filter (fun p => p ≠ pathJoin dir f)) ∧
      (fileInfoRoute fs dir f = .ok (pathJoin dir f) ∨
        fileInfoRoute fs dir f = .error ⟨"File not found", 404, "FILE_NOT_FOUND"⟩) ∧
      (viewFileRoute fs dir f = .ok (pathJoin dir f) ∨
        viewFileRoute fs dir f = .error ⟨"File not found", 404, "FILE_NOT_FOUND"⟩)) := by
  constructor
  · intro h
    refine ⟨?_, ?_, ?_⟩ <;> simp [deleteFileRoute, fileInfoRoute, viewFileRoute, h]
  · intro h
    have h0 := h
    simp only [invalidFilename, Bool.or_eq_false_iff] at h
    obtain ⟨⟨⟨hne, hdd⟩, hsl⟩, hbs⟩ := h
    refine ⟨⟨fun e => by subst e; exact absurd hne (by decide), hdd, hsl, hbs⟩, ?_, ?_, ?_, ?_⟩
    · by_cases hdot : f = "."
      · exact Or.inl ⟨hdot, by simp [pathJoin, hdot]⟩
      · exact Or.inr (by simp [pathJoin, hdot])
    · rw [deleteFileRoute, if_neg (by simp [h0])]
      by_cases hc : pathJoin dir f ∈ fs
      · simp [hc]
      · simp [hc]
    · rw [fileInfoRoute, if_neg (by simp [h0])]
      by_cases hc : pathJoin dir f ∈ fs
      · simp [hc]
      · simp [hc]
    · rw [viewFileRoute, if_neg (by simp [h0])]
      by_cases hc : pathJoin dir f ∈ fs
      · simp [hc]
      · simp [hc]

/-- Witness for C10: the traversal attempt `../secret` is rejected by all
three endpoints, and the clean name `r1.png` resolves to the single joined
path inside the uploads directory. -/
theorem filenameSafety_spec_witness :
    deleteFileRoute ["uploads/r1.png"] "uploads" "../secret" =
      (["uploads/r1.png"], .error ⟨"Invalid filename", 400, "INVALID_FILENAME"⟩) ∧
    fileInfoRoute ["uploads/r1.png"] "uploads" "../secret" =
      .error ⟨"Invalid filename", 400, "INVALID_FILENAME"⟩ ∧
    viewFileRoute ["uploads/r1.png"] "uploads" "../secret" =
      .error ⟨"Invalid filename", 400, "INVALID_FILENAME"⟩ ∧
    fileInfoRoute ["uploads/r1.png"] "uploads" "r1.png" = .ok (pathJoin "uploads" "r1.png") := by
  have h1 := (filenameSafety_spec ["uploads/r1.png"] "uploads" "../secret").1 (by decide)
  have h2 := ((filenameSafety_spec ["uploads/r1.png"] "uploads" "r1.png").2 (by decide)).2.2.2.1
  refine ⟨h1.1, h1.2.1, h1.2.2, ?_⟩
  rcases h2 with h2 | h2
  · exact h2
  · have h3 : fileInfoRoute ["uploads/r1.png"] "uploads" "r1.png" = .ok "uploads/r1.png" := rfl
    rw [h3] at h2
    exact Except.noConfusion h2
